import Mathlib

/-!
Shallow embedding of the NormateAI results-experience controller
(`frontend/app/results/[jobId]/page.tsx`, `frontend/lib/api.ts`,
`components/ChatSidebar.tsx`), together with proofs about the polling
loop, the perspective-based visibility flags, the PDF pagination loop,
the export error handling and the chat session.
-/

namespace NormateAI

/-! ## Data model (`frontend/lib/utils.ts`) -/

/-- Job status lifecycle (`AnalysisJob.status` in `lib/utils.ts`):
`"pending" | "processing" | "completed" | "failed"`.  The TS declaration of
`AnalysisResult.status` narrows this to `completed | failed`, but the polling
code explicitly branches on non-terminal statuses arriving in a 200 payload,
so the model keeps the full enumeration on the payload. -/
inductive JobStatus where
  | pending
  | processing
  | completed
  | failed
deriving DecidableEq, Repr

/-- Interface `QuantEvidence` from `lib/utils.ts`. -/
structure QuantEvidence where
  metric : String
  value : String
  change : Option String
  direction : Option String
deriving DecidableEq, Repr

/-- Interface `QualEvidence` from `lib/utils.ts` (`sentiment : number` is
modelled as a rational). -/
structure QualEvidence where
  theme : String
  sentiment : ℚ
  sentimentLabel : String
  quotes : List String
deriving DecidableEq, Repr

/-- Interface `RecommendedAction` from `lib/utils.ts`. -/
structure RecommendedAction where
  title : String
  description : String
  evidence : String
  impact : String
  difficulty : String
  estimatedEffect : String
deriving DecidableEq, Repr

/-- Interface `ABTest` from `lib/utils.ts`. -/
structure ABTest where
  name : String
  control : String
  treatment : String
  metric : String
  duration : String
deriving DecidableEq, Repr

/-- Interface `TrackedMetric` from `lib/utils.ts`. -/
structure TrackedMetric where
  name : String
  current : String
  target : String
deriving DecidableEq, Repr

/-- Modelled from the spec: the `financialImpact` payload carried by a result.
Its TS type declaration is not among the provided sources (the checked-in
`lib/utils.ts` predates the field); only its presence or absence is ever
observed by the visibility logic, so its internal shape is a placeholder. -/
structure FinancialImpact where
  payload : String
deriving DecidableEq, Repr

/-- Interface `AnalysisResult` from `lib/utils.ts`, extended with the two
optional fields `financialImpact?` and `suggestedQuestions?[]` that the
results page reads (`result?.financialImpact`, `result?.suggestedQuestions`);
their declarations are modelled from the spec because the updated type file
is not among the sources. -/
structure AnalysisResult where
  jobId : String
  status : JobStatus
  problemSummary : String
  quantEvidence : List QuantEvidence
  qualEvidence : List QualEvidence
  actions : List RecommendedAction
  abTests : List ABTest
  metrics : List TrackedMetric
  financialImpact : Option FinancialImpact
  suggestedQuestions : Option (List String)
  generatedAt : String
deriving DecidableEq, Repr

/-- Perspective type (`components/PerspectiveToggle.tsx`, used by the
results page): the closed enumeration `pm | cfo | designer`. -/
inductive Perspective where
  | pm
  | cfo
  | designer
deriving DecidableEq, Repr

/-! ## Perspective-based visibility (results page)

The results page computes one boolean per section:

```
const showFinancial = result?.financialImpact && (perspective === "cfo" || perspective === "pm");
const showABTests = perspective === "pm" || perspective === "designer";
const showMetrics = perspective === "pm" || perspective === "cfo";
const showQuantEvidence = perspective === "pm" || perspective === "cfo";
const showQualEvidence = perspective === "pm" || perspective === "designer";
const showRecommendedQuestions = result?.suggestedQuestions && result.suggestedQuestions.length > 0;
```

`result?.financialImpact` is truthy exactly when `result` is non-null and the
field is present (it is an object when present); `result?.suggestedQuestions`
is an array, which is truthy whenever present, so the conjunction reduces to
presence plus non-emptiness. -/

/-- Flag `showFinancial` from the results page. -/
def showFinancial (result : Option AnalysisResult) (perspective : Perspective) : Bool :=
  (match result with
    | some r => r.financialImpact.isSome
    | none => false)
  && (perspective == Perspective.cfo || perspective == Perspective.pm)

/-- Flag `showABTests` from the results page. -/
def showABTests (perspective : Perspective) : Bool :=
  perspective == Perspective.pm || perspective == Perspective.designer

/-- Flag `showMetrics` from the results page. -/
def showMetrics (perspective : Perspective) : Bool :=
  perspective == Perspective.pm || perspective == Perspective.cfo

/-- Flag `showQuantEvidence` from the results page. -/
def showQuantEvidence (perspective : Perspective) : Bool :=
  perspective == Perspective.pm || perspective == Perspective.cfo

/-- Flag `showQualEvidence` from the results page. -/
def showQualEvidence (perspective : Perspective) : Bool :=
  perspective == Perspective.pm || perspective == Perspective.designer

/-- Flag `showRecommendedQuestions` from the results page. -/
def showRecommendedQuestions (result : Option AnalysisResult) : Bool :=
  match result with
  | some r =>
    match r.suggestedQuestions with
    | some qs => decide (qs.length > 0)
    | none => false
  | none => false

/-- The `ProblemSummaryCard` is rendered unconditionally inside the
`state === "ready"` branch of the results page (no guarding flag). -/
def showProblemSummary : Bool :=
  true

/-- The `ActionsCard` is rendered unconditionally inside the
`state === "ready"` branch of the results page (no guarding flag). -/
def showActions : Bool :=
  true

/-- C4: for every result `r` and perspective `p`, the visibility decision
equals the fixed table — quant evidence and metrics iff `p ∈ {pm, cfo}`, qual
evidence and A/B tests iff `p ∈ {pm, designer}`, financial impact iff
`p ∈ {pm, cfo}` and the field is present (hence hidden for all perspectives
when absent), problem summary and actions always, suggested questions iff the
result carries a non-empty list, independent of `p`. -/
theorem claim_C4_visibility_table (r : AnalysisResult) (p : Perspective) :
    (showQuantEvidence p = true ↔ (p = Perspective.pm ∨ p = Perspective.cfo))
    ∧ (showQualEvidence p = true ↔ (p = Perspective.pm ∨ p = Perspective.designer))
    ∧ (showABTests p = true ↔ (p = Perspective.pm ∨ p = Perspective.designer))
    ∧ (showMetrics p = true ↔ (p = Perspective.pm ∨ p = Perspective.cfo))
    ∧ (showFinancial (some r) p = true ↔
        ((p = Perspective.pm ∨ p = Perspective.cfo) ∧ r.financialImpact.isSome = true))
    ∧ (r.financialImpact = none → showFinancial (some r) p = false)
    ∧ showProblemSummary = true
    ∧ showActions = true
    ∧ (showRecommendedQuestions (some r) = true ↔
        ∃ qs, r.suggestedQuestions = some qs ∧ 0 < qs.length) := by
  obtain ⟨_, _, _, _, _, _, _, _, fin, sq, _⟩ := r
  cases p <;> cases fin <;> cases sq <;>
    simp [showFinancial, showABTests, showMetrics, showQuantEvidence,
      showQualEvidence, showRecommendedQuestions, showProblemSummary, showActions]

/-! ## ChatSidebar (`components/ChatSidebar.tsx`)

State of one mounted sidebar: `messages` (transcript), `input` (text box),
`loading` (request in flight), plus the `hasHandledInitial` ref handled
separately below.  `sendMessage(text)` is

```
if (!text.trim() || loading) return;
setMessages(m => [...m, { role: "user", content: text }]);
setInput(""); setLoading(true);
try { const response = await chatWithAnalysis(...); append assistant reply }
catch { append fixed fallback assistant message }
finally { setLoading(false) }
```

The model runs one call to completion: the awaited request is an input
(`ChatOutcome`), and the returned `Nat` counts chat requests issued by the
call. -/

/-- JS whitespace class used by `String.prototype.trim` (restricted to the
ASCII whitespace characters; the guard only ever distinguishes all-whitespace
from other text). -/
def isJsWhitespace (c : Char) : Bool :=
  c == ' ' || c == '\t' || c == '\n' || c == '\r' || c == '\x0b' || c == '\x0c'

/-- JS `text.trim()`: strip leading and trailing whitespace. -/
def jsTrim (s : String) : String :=
  String.mk (((s.data.dropWhile isJsWhitespace).reverse.dropWhile isJsWhitespace).reverse)

/-- Message role (`role: "user" | "assistant"`). -/
inductive Role where
  | user
  | assistant
deriving DecidableEq, Repr

/-- Interface `Message` from `ChatSidebar.tsx`. -/
structure Message where
  role : Role
  content : String
deriving DecidableEq, Repr

/-- State owned by one mounted `ChatSidebar`. -/
structure ChatSt where
  messages : List Message
  input : String
  loading : Bool
deriving DecidableEq, Repr

/-- Fixed introductory assistant message (initial `useState` value). -/
def introMessage : Message :=
  { role := Role.assistant
    content := "I can help you explore this analysis further. Ask me anything about the findings, methodology, or next steps." }

/-- Initial chat state at mount: one intro message, empty input, not loading. -/
def chatInit : ChatSt :=
  { messages := [introMessage], input := "", loading := false }

/-- Fixed fallback assistant text appended in the `catch` branch. -/
def fallbackContent : String :=
  "Sorry, I couldn\x27t process that request. Please try again in a moment."

/-- Resolution of the awaited `chatWithAnalysis` request: either the backend
reply `{ message }`, or any transport/processing error (the `catch` branch
discards the error value). -/
inductive ChatOutcome where
  | reply (message : String)
  | failure
deriving DecidableEq, Repr

/-- Assistant message appended for a given request resolution. -/
def assistantFor (oc : ChatOutcome) : Message :=
  match oc with
  | ChatOutcome.reply m => { role := Role.assistant, content := m }
  | ChatOutcome.failure => { role := Role.assistant, content := fallbackContent }

/-- One full run of `sendMessage(text)` from state `st`, with the awaited
request resolving as `oc`; returns the final state and the number of chat
requests issued. -/
def sendMessage (st : ChatSt) (text : String) (oc : ChatOutcome) : ChatSt × Nat :=
  if jsTrim text = "" ∨ st.loading then
    (st, 0)
  else
    let afterUser := st.messages ++ [{ role := Role.user, content := text }]
    ({ messages := afterUser ++ [assistantFor oc], input := "", loading := false }, 1)

/-- C7: calling `sendMessage` with a blank/whitespace-only string, or while a
request is in flight, is a no-op — the state (transcript, input, loading
flag) is unchanged and no request is issued. -/
theorem claim_C7_blank_or_inflight_send_is_noop (st : ChatSt) (text : String)
    (oc : ChatOutcome) (h : jsTrim text = "" ∨ st.loading) :
    sendMessage st text oc = (st, 0) := by
  simp [sendMessage, h]

/-- Witness for C7 at a concrete whitespace-only input. -/
theorem claim_C7_witness :
    sendMessage chatInit "   " ChatOutcome.failure = (chatInit, 0) :=
  claim_C7_blank_or_inflight_send_is_noop chatInit "   " ChatOutcome.failure
    (Or.inl (by decide))

/-- C8: an accepted send whose request fails appends exactly the user message
and one fixed fallback assistant message, issues exactly one request (no
retry), and clears the in-flight flag so subsequent sends are accepted. -/
theorem claim_C8_failure_appends_single_fallback (st : ChatSt) (text : String)
    (h : ¬(jsTrim text = "" ∨ st.loading)) :
    (sendMessage st text ChatOutcome.failure).1.messages =
      st.messages ++ [{ role := Role.user, content := text },
        { role := Role.assistant, content := fallbackContent }]
    ∧ (sendMessage st text ChatOutcome.failure).2 = 1
    ∧ (sendMessage st text ChatOutcome.failure).1.loading = false := by
  simp [sendMessage, h, assistantFor]

/-- Witness for C8 at a concrete accepted-but-failing send. -/
theorem claim_C8_witness :
    (sendMessage chatInit "Why did conversion drop?" ChatOutcome.failure).1.messages =
      chatInit.messages ++ [{ role := Role.user, content := "Why did conversion drop?" },
        { role := Role.assistant, content := fallbackContent }]
    ∧ (sendMessage chatInit "Why did conversion drop?" ChatOutcome.failure).2 = 1
    ∧ (sendMessage chatInit "Why did conversion drop?" ChatOutcome.failure).1.loading = false :=
  claim_C8_failure_appends_single_fallback chatInit "Why did conversion drop?"
    (by decide)

/-! ### Transcript shape invariant (C10) -/

/-- Lists built purely from user/assistant pairs (`[u, a, u, a, ...]`). -/
inductive ExchangeShape : List Message → Prop where
  | nil : ExchangeShape []
  | pair (u a : Message) (t : List Message) :
      u.role = Role.user → a.role = Role.assistant →
      ExchangeShape t → ExchangeShape (u :: a :: t)

/-- Transcript invariant: the fixed intro message followed by complete
user/assistant exchanges. -/
def TranscriptShape (ms : List Message) : Prop :=
  ∃ t, ms = introMessage :: t ∧ ExchangeShape t

/-- Chat states reachable from mount by completed `sendMessage` calls. -/
inductive ChatReachable : ChatSt → Prop where
  | init : ChatReachable chatInit
  | step (st : ChatSt) (text : String) (oc : ChatOutcome) :
      ChatReachable st → ChatReachable (sendMessage st text oc).1

theorem exchangeShape_append_pair {t : List Message} (h : ExchangeShape t)
    (u a : Message) (hu : u.role = Role.user) (ha : a.role = Role.assistant) :
    ExchangeShape (t ++ [u, a]) := by
  induction h with
  | nil => exact ExchangeShape.pair u a [] hu ha ExchangeShape.nil
  | pair u2 a2 t2 hu2 ha2 _ ih =>
    exact ExchangeShape.pair u2 a2 (t2 ++ [u, a]) hu2 ha2 ih

theorem exchangeShape_even_length {t : List Message} (h : ExchangeShape t) :
    Even t.length := by
  induction h with
  | nil => exact ⟨0, rfl⟩
  | pair u a t2 _ _ _ ih =>
    obtain ⟨k, hk⟩ := ih
    exact ⟨k + 1, by simp only [List.length_cons]; omega⟩

theorem exchangeShape_user_followed {t : List Message} (h : ExchangeShape t) :
    ∀ i m, t[i]? = some m → m.role = Role.user →
      ∃ m2, t[i + 1]? = some m2 ∧ m2.role = Role.assistant := by
  induction h with
  | nil => intro i m hm; simp at hm
  | pair u a t2 hu ha _ ih =>
    intro i m hm hrole
    match i with
    | 0 => exact ⟨a, by simp, ha⟩
    | 1 =>
      simp at hm
      rw [← hm, ha] at hrole
      cases hrole
    | Nat.succ (Nat.succ j) =>
      simp at hm
      obtain ⟨m2, hg, hr⟩ := ih j m hm hrole
      exact ⟨m2, by simpa using hg, hr⟩

theorem chatReachable_shape {st : ChatSt} (h : ChatReachable st) :
    TranscriptShape st.messages := by
  induction h with
  | init => exact ⟨[], rfl, ExchangeShape.nil⟩
  | step st2 text oc _ ih =>
    obtain ⟨t, hms, hsh⟩ := ih
    by_cases hg : jsTrim text = "" ∨ st2.loading
    · exact ⟨t, by simp [sendMessage, hg, hms], hsh⟩
    · refine ⟨t ++ [{ role := Role.user, content := text }, assistantFor oc],
        ?_, ?_⟩
      · simp [sendMessage, hg, hms]
      · exact exchangeShape_append_pair hsh _ _ rfl
          (by cases oc <;> simp [assistantFor])

/-- C10: the transcript starts as the single fixed intro assistant message;
every accepted send appends exactly the user message followed by one
assistant message (reply or fallback), leaving existing messages untouched;
hence every reachable transcript has odd length, begins with the intro
message, and every user message is immediately followed by an assistant
message. -/
theorem claim_C10_transcript_shape (st : ChatSt) (h : ChatReachable st) :
    chatInit.messages = [introMessage]
    ∧ introMessage.role = Role.assistant
    ∧ (∀ text oc, ¬(jsTrim text = "" ∨ st.loading) →
        (sendMessage st text oc).1.messages =
          st.messages ++ [{ role := Role.user, content := text }, assistantFor oc])
    ∧ st.messages.head? = some introMessage
    ∧ Odd st.messages.length
    ∧ (∀ i m, st.messages[i]? = some m → m.role = Role.user →
        ∃ m2, st.messages[i + 1]? = some m2 ∧ m2.role = Role.assistant) := by
  obtain ⟨t, hms, hsh⟩ := chatReachable_shape h
  refine ⟨rfl, rfl, ?_, ?_, ?_, ?_⟩
  · intro text oc hg
    simp [sendMessage, hg]
  · simp [hms]
  · have := exchangeShape_even_length hsh
    obtain ⟨k, hk⟩ := this
    exact ⟨k, by simp [hms, hk]; omega⟩
  · intro i m hm hrole
    rw [hms] at hm
    match i with
    | 0 =>
      simp at hm
      rw [← hm] at hrole
      simp [introMessage] at hrole
    | Nat.succ j =>
      simp at hm
      obtain ⟨m2, hg, hr⟩ := exchangeShape_user_followed hsh j m hm hrole
      exact ⟨m2, by rw [hms]; simpa using hg, hr⟩

/-- Witness for C10 at the initial state. -/
theorem claim_C10_witness :
    chatInit.messages.head? = some introMessage ∧ Odd chatInit.messages.length :=
  ⟨(claim_C10_transcript_shape chatInit ChatReachable.init).2.2.2.1,
   (claim_C10_transcript_shape chatInit ChatReachable.init).2.2.2.2.1⟩

/-! ### Initial-question injection (C6)

The effect in `ChatSidebar.tsx`:

```
useEffect(() => \x7b
  if (initialQuestion && isOpen && !hasHandledInitial.current) \x7b
    hasHandledInitial.current = true;
    sendMessage(initialQuestion);
  \x7d
\x7d, [initialQuestion, isOpen]);
```

`hasHandledInitial` is a ref: it persists for the whole component lifetime
and is never reset.  One effect evaluation is a function of the ref value and
the two dependencies; a session is an arbitrary sequence of evaluations. -/

/-- JS truthiness of the optional `initialQuestion` prop (absent or the empty
string are falsy). -/
def questionTruthy (q : Option String) : Bool :=
  match q with
  | some s => !(s == "")
  | none => false

/-- One evaluation of the initial-question effect: given the current
`hasHandledInitial` ref value and the `(initialQuestion, isOpen)` deps,
returns the new ref value and whether `sendMessage(initialQuestion)` was
invoked. -/
def initialEffectStep (hasHandled : Bool) (initialQuestion : Option String)
    (isOpen : Bool) : Bool × Bool :=
  if questionTruthy initialQuestion && isOpen && !hasHandled then
    (true, true)
  else
    (hasHandled, false)

/-- A whole session: fold the effect over any sequence of evaluations,
counting how many of them invoked the auto-send. -/
def initialEffectRun (hasHandled : Bool) :
    List (Option String × Bool) → Bool × Nat
  | [] => (hasHandled, 0)
  | (q, isOpen) :: rest =>
    let s := initialEffectStep hasHandled q isOpen
    let r := initialEffectRun s.1 rest
    (r.1, (if s.2 then 1 else 0) + r.2)

theorem initialEffectRun_handled (evs : List (Option String × Bool)) :
    initialEffectRun true evs = (true, 0) := by
  induction evs with
  | nil => rfl
  | cons e rest ih =>
    obtain ⟨q, isOpen⟩ := e
    simp [initialEffectRun, initialEffectStep, ih]

/-- C6: over one whole chat-sidebar mount, the initial-question effect invokes
the auto-send at most once, no matter how many times it re-evaluates (with any
sequence of `initialQuestion` / `isOpen` values). -/
theorem claim_C6_initial_question_at_most_once
    (evs : List (Option String × Bool)) :
    (initialEffectRun false evs).2 ≤ 1 := by
  induction evs with
  | nil => simp [initialEffectRun]
  | cons e rest ih =>
    obtain ⟨q, isOpen⟩ := e
    cases hq : questionTruthy q <;> cases isOpen <;>
      simp [initialEffectRun, initialEffectStep, hq, initialEffectRun_handled] <;>
      simpa using ih

/-! ## Polling, library helper (`lib/api.ts`, `pollForResults`)

`getResults(jobId)` either resolves with the JSON payload or throws
`ApiError(detail, res.status)` when the response is not ok.  One attempt of
`pollForResults` then does

```
try \x7b
  const result = await getResults(jobId);
  if (result.status === "completed") return result;
  if (result.status === "failed") throw new ApiError("Analysis failed on the server.", 500);
  onProgress?.(...);
\x7d catch (err) \x7b
  if (err instanceof ApiError && err.status !== 202) throw err;
\x7d
await delay(intervalMs);
```

for `attempt = 0 .. maxAttempts-1` (defaults `maxAttempts = 60`,
`intervalMs = 2000`), and finally throws
`ApiError("Analysis timed out. Please try again.", 408)`.  The model takes
the backend as a trace `Nat → FetchOutcome` (what the fetch of attempt `i`
does) and returns the overall outcome together with the number of status
fetches issued. -/

/-- Resolution of one `getResults` call: a JSON payload, or an `ApiError`
carrying the HTTP status (202 is the "still processing" signal). -/
inductive FetchOutcome where
  | ok (r : AnalysisResult)
  | httpError (status : Nat) (detail : String)
deriving DecidableEq, Repr

/-- Overall outcome of `pollForResults`: the completed payload, or the thrown
`ApiError` (status code and message). -/
inductive PollResult where
  | success (r : AnalysisResult)
  | failure (status : Nat) (msg : String)
deriving DecidableEq, Repr

/-- Message of the `ApiError` thrown for a `failed` payload. -/
def analysisFailedMsg : String :=
  "Analysis failed on the server."

/-- Message of the `ApiError` thrown after the retry budget is exhausted. -/
def timeoutMsg : String :=
  "Analysis timed out. Please try again."

/-- The `for` loop of `pollForResults`, structurally on the remaining
attempts; `attempt` is the current loop index. -/
def pollAux (trace : Nat → FetchOutcome) (attempt : Nat) :
    Nat → PollResult × Nat
  | 0 => (PollResult.failure 408 timeoutMsg, 0)
  | remaining + 1 =>
    match trace attempt with
    | FetchOutcome.ok r =>
      if r.status = JobStatus.completed then
        (PollResult.success r, 1)
      else if r.status = JobStatus.failed then
        (PollResult.failure 500 analysisFailedMsg, 1)
      else
        let rest := pollAux trace (attempt + 1) remaining
        (rest.1, rest.2 + 1)
    | FetchOutcome.httpError status detail =>
      if status ≠ 202 then
        (PollResult.failure status detail, 1)
      else
        let rest := pollAux trace (attempt + 1) remaining
        (rest.1, rest.2 + 1)

/-- `pollForResults` at its default parameters (`maxAttempts = 60`). -/
def pollForResults (trace : Nat → FetchOutcome) : PollResult × Nat :=
  pollAux trace 0 60

/-- An attempt outcome that neither terminates nor aborts polling: a payload
with a non-terminal status, or the 202 "still processing" error. -/
def NonTerminal (o : FetchOutcome) : Prop :=
  match o with
  | FetchOutcome.ok r => r.status ≠ JobStatus.completed ∧ r.status ≠ JobStatus.failed
  | FetchOutcome.httpError status _ => status = 202

theorem pollAux_le (trace : Nat → FetchOutcome) :
    ∀ remaining attempt, (pollAux trace attempt remaining).2 ≤ remaining := by
  intro remaining
  induction remaining with
  | zero => intro attempt; simp [pollAux]
  | succ n ih =>
    intro attempt
    unfold pollAux
    match trace attempt with
    | FetchOutcome.ok r =>
      by_cases hc : r.status = JobStatus.completed
      · simp [hc]
      · by_cases hf : r.status = JobStatus.failed
        · simp [hc, hf]
        · simp only [hc, hf, if_false]
          have := ih (attempt + 1)
          omega
    | FetchOutcome.httpError status detail =>
      by_cases h2 : status = 202
      · simp only [h2, ne_eq, not_true_eq_false, if_false]
        have := ih (attempt + 1)
        omega
      · simp [h2]

theorem pollAux_timeout (trace : Nat → FetchOutcome) :
    ∀ remaining attempt,
      (∀ i, attempt ≤ i → i < attempt + remaining → NonTerminal (trace i)) →
      pollAux trace attempt remaining = (PollResult.failure 408 timeoutMsg, remaining) := by
  intro remaining
  induction remaining with
  | zero => intro attempt _; simp [pollAux]
  | succ n ih =>
    intro attempt hnt
    have h0 : NonTerminal (trace attempt) := hnt attempt (Nat.le_refl attempt) (by omega)
    unfold pollAux
    match htr : trace attempt with
    | FetchOutcome.ok r =>
      rw [htr] at h0
      obtain ⟨hc, hf⟩ := h0
      have ihrec := ih (attempt + 1) (fun i h1 h2 => hnt i (by omega) (by omega))
      simp [hc, hf, ihrec]
    | FetchOutcome.httpError status detail =>
      rw [htr] at h0
      have h202 : status = 202 := h0
      have ihrec := ih (attempt + 1) (fun i h1 h2 => hnt i (by omega) (by omega))
      simp [h202, ihrec]

/-! ## Polling, results page (`app/results/[jobId]/page.tsx`)

The page does not call `pollForResults`; it owns its own effect:

```
const fetchResults = useCallback(async () => \x7b
  try \x7b
    const data = await getResults(jobId);
    if (data.status === "completed") \x7b setResult(data); setState("ready"); return true; \x7d
    return false;
  \x7d catch (err) \x7b
    if (err instanceof Error && err.message.includes("still processing")) return false;
    setError(...); setState("error"); return true;
  \x7d
\x7d, [jobId]);

useEffect(() => \x7b
  let cancelled = false; let timeout;
  const poll = async () => \x7b
    if (cancelled) return;
    const done = await fetchResults();
    if (!done && !cancelled) \x7b setPollCount(c => c + 1); timeout = setTimeout(poll, 2000); \x7d
  \x7d;
  poll();
  return () => \x7b cancelled = true; clearTimeout(timeout); \x7d;
\x7d, [fetchResults]);
```

Note the three facts proved below: a payload whose status is `failed` falls
through to `return false` (keep polling); there is no attempt cap and no
timeout error; and `fetchResults` applies its state updates without checking
`cancelled`. -/

/-- Page-level phase (`type PageState = "loading" | "ready" | "error"`). -/
inductive PageState where
  | loading
  | ready
  | error
deriving DecidableEq, Repr

/-- The poll-related state of `ResultsPage` (`state`, `result`, `error`,
`pollCount`) plus the export flag `isExporting` used by the export handler. -/
structure PageSt where
  state : PageState
  result : Option AnalysisResult
  error : Option String
  pollCount : Nat
  isExporting : Bool
deriving DecidableEq, Repr

/-- Initial `useState` values of the page. -/
def pageInit : PageSt :=
  { state := PageState.loading, result := none, error := none,
    pollCount := 0, isExporting := false }

/-- Resolution of one `getResults` call as seen by `fetchResults`: a payload,
a rejection whose message contains "still processing", or any other
rejection. -/
inductive PageFetchOutcome where
  | payload (r : AnalysisResult)
  | stillProcessing
  | otherError (msg : String)
deriving DecidableEq, Repr

/-- One completed `fetchResults()` call: the state updates it applies and the
`done` boolean it returns. -/
def fetchResults (st : PageSt) (o : PageFetchOutcome) : PageSt × Bool :=
  match o with
  | PageFetchOutcome.payload r =>
    if r.status = JobStatus.completed then
      ({ st with result := some r, state := PageState.ready }, true)
    else
      (st, false)
  | PageFetchOutcome.stillProcessing => (st, false)
  | PageFetchOutcome.otherError msg =>
    ({ st with error := some msg, state := PageState.error }, true)

/-- One run of the `poll` loop.  Each list entry is one scheduled `poll()`
invocation: the resolution of its `getResults` fetch, paired with whether the
effect cleanup ran while that fetch was in flight (`cancelledDuring`).  The
`cancelled` argument is the closed-over flag at the time the invocation
fires; the returned `Nat` counts fetches issued. -/
def pollRun (st : PageSt) (fetches : Nat) (cancelled : Bool) :
    List (PageFetchOutcome × Bool) → PageSt × Nat
  | [] => (st, fetches)
  | (o, cancelledDuring) :: rest =>
    if cancelled then
      (st, fetches)
    else
      let fr := fetchResults st o
      let cancelledNow := cancelled || cancelledDuring
      if !fr.2 && !cancelledNow then
        pollRun { fr.1 with pollCount := fr.1.pollCount + 1 } (fetches + 1)
          cancelledNow rest
      else
        (fr.1, fetches + 1)

/-- A non-terminal response used by concrete traces below: the backend
answers 202 / "still processing". -/
def processingStep : PageFetchOutcome × Bool :=
  (PageFetchOutcome.stillProcessing, false)

/-- A concrete completed payload (used by counterexamples). -/
def completedResult : AnalysisResult :=
  { jobId := "job-1", status := JobStatus.completed, problemSummary := "summary",
    quantEvidence := [], qualEvidence := [], actions := [], abTests := [],
    metrics := [], financialImpact := none, suggestedQuestions := none,
    generatedAt := "2024-01-01" }

/-- A concrete payload whose status is `failed` (used by counterexamples). -/
def failedResult : AnalysisResult :=
  { completedResult with status := JobStatus.failed }

/-- C1 counterexample: the poller the results page actually runs (its own
poll effect — `pollForResults` has no callers) has no 60-attempt cap: on 61
consecutive "still processing" responses it issues 61 fetches — a 61st fetch
for the same job IS issued — and the page stays in the `loading` phase with
no Timeout error. -/
theorem claim_C1_counterexample :
    (pollRun pageInit 0 false (List.replicate 61 processingStep)).2 = 61
    ∧ (pollRun pageInit 0 false (List.replicate 61 processingStep)).1.state =
        PageState.loading
    ∧ (pollRun pageInit 0 false (List.replicate 61 processingStep)).1.error =
        none := by
  refine ⟨?_, ?_, ?_⟩ <;> rfl

/-- C1 (amended): the `pollForResults` helper in `lib/api.ts`, at its default
parameters, issues at most 60 status fetches for any backend trace, and when
the first 60 attempts all resolve as non-terminal it stops after exactly 60
fetches with the Timeout error (`ApiError` 408, "Analysis timed out...");
the results page's own polling effect, however, is unbounded (see the
counterexample). -/
theorem claim_C1_pollForResults_timeout_cap (trace : Nat → FetchOutcome)
    (h : ∀ i, i < 60 → NonTerminal (trace i)) :
    (∀ tr : Nat → FetchOutcome, (pollForResults tr).2 ≤ 60)
    ∧ pollForResults trace = (PollResult.failure 408 timeoutMsg, 60) := by
  constructor
  · intro tr
    exact pollAux_le tr 60 0
  · exact pollAux_timeout trace 60 0 (fun i h1 h2 => h i (by omega))

/-- Witness for C1 (amended): a trace answering 202 forever satisfies the
hypothesis and produces the Timeout failure after exactly 60 fetches. -/
theorem claim_C1_witness :
    (∀ tr : Nat → FetchOutcome, (pollForResults tr).2 ≤ 60)
    ∧ pollForResults (fun _ => FetchOutcome.httpError 202 "still processing") =
        (PollResult.failure 408 timeoutMsg, 60) :=
  claim_C1_pollForResults_timeout_cap
    (fun _ => FetchOutcome.httpError 202 "still processing")
    (fun i _ => by simp [NonTerminal])

/-- C2 counterexample: when a status fetch of the results page resolves with
a payload whose status is `failed`, the controller does NOT stop — it stays
in the `loading` phase and issues a further fetch (2 fetches after a
`failed` payload followed by one more response). -/
theorem claim_C2_counterexample :
    (pollRun pageInit 0 false
        [(PageFetchOutcome.payload failedResult, false), processingStep]).2 = 2
    ∧ (pollRun pageInit 0 false
        [(PageFetchOutcome.payload failedResult, false), processingStep]).1.state =
        PageState.loading
    ∧ (fetchResults pageInit (PageFetchOutcome.payload failedResult)).2 = false := by
  refine ⟨?_, ?_, ?_⟩ <;> rfl

/-- C2 (amended): in the `pollForResults` helper a payload with status
`failed` on the first attempt stops polling immediately with the
AnalysisFailed error (`ApiError` 500, "Analysis failed on the server.") after
exactly one fetch; the results page's own `fetchResults`, however, treats a
`failed` payload as non-terminal and keeps polling (see the counterexample) —
it reaches its error phase only when the fetch itself rejects with an error
other than "still processing". -/
theorem claim_C2_failed_payload (trace : Nat → FetchOutcome)
    (r : AnalysisResult) (h0 : trace 0 = FetchOutcome.ok r)
    (hf : r.status = JobStatus.failed) :
    pollForResults trace = (PollResult.failure 500 analysisFailedMsg, 1)
    ∧ (∀ st msg,
        fetchResults st (PageFetchOutcome.otherError msg) =
          ({ st with error := some msg, state := PageState.error }, true)) := by
  constructor
  · unfold pollForResults pollAux
    rw [h0]
    have hc : r.status ≠ JobStatus.completed := by rw [hf]; intro hh; cases hh
    simp [hc, hf]
  · intro st msg
    rfl

/-- Witness for C2 (amended) at a concrete trace whose first response is a
`failed` payload. -/
theorem claim_C2_witness :
    pollForResults (fun _ => FetchOutcome.ok failedResult) =
      (PollResult.failure 500 analysisFailedMsg, 1)
    ∧ (∀ st msg,
        fetchResults st (PageFetchOutcome.otherError msg) =
          ({ st with error := some msg, state := PageState.error }, true)) :=
  claim_C2_failed_payload (fun _ => FetchOutcome.ok failedResult) failedResult
    rfl rfl

/-- C3 counterexample: a fetch already in flight when the poll effect's
cleanup runs still applies its state updates when it resolves —
`fetchResults` checks no cancellation flag.  Concretely: cancellation happens
during the only fetch, the fetch resolves `completed`, and the page state
nevertheless transitions to `ready` with the result stored. -/
theorem claim_C3_counterexample :
    (pollRun pageInit 0 false
        [(PageFetchOutcome.payload completedResult, true)]).1.state =
      PageState.ready
    ∧ (pollRun pageInit 0 false
        [(PageFetchOutcome.payload completedResult, true)]).1.result =
      some completedResult
    ∧ pageInit.state = PageState.loading := by
  refine ⟨?_, ?_, ?_⟩ <;> rfl

/-- C3 (amended): once the poll effect's cleanup has run, no further fetch is
issued and the attempt counter is never updated again — a scheduled `poll`
invocation that sees `cancelled` does nothing, and after a cancellation
during an in-flight fetch the loop stops with exactly that one extra fetch.
However, the result/phase/error updates of the in-flight fetch are still
applied (`fetchResults` has no cancellation check): the post-cancellation
state is exactly `(fetchResults st o).1`, in which `pollCount` is
unchanged. -/
theorem claim_C3_cancellation (st : PageSt) (fetches : Nat)
    (evs : List (PageFetchOutcome × Bool)) (o : PageFetchOutcome)
    (rest : List (PageFetchOutcome × Bool)) :
    pollRun st fetches true evs = (st, fetches)
    ∧ pollRun st fetches false ((o, true) :: rest) =
        ((fetchResults st o).1, fetches + 1)
    ∧ (fetchResults st o).1.pollCount = st.pollCount := by
  refine ⟨?_, ?_, ?_⟩
  · cases evs with
    | nil => rfl
    | cons e rest2 =>
      obtain ⟨o2, c2⟩ := e
      simp [pollRun]
  · simp only [pollRun, Bool.false_or]
    cases hfr : (fetchResults st o).2 <;> simp [hfr]
  · cases o with
    | payload r =>
      by_cases hc : r.status = JobStatus.completed <;> simp [fetchResults, hc]
    | stillProcessing => rfl
    | otherError msg => rfl

/-- Witness for C3 (amended): no hypotheses beyond the universally quantified
arguments; instantiated at the concrete completed-payload scenario. -/
theorem claim_C3_witness :
    pollRun pageInit 3 true [processingStep] = (pageInit, 3)
    ∧ pollRun pageInit 3 false
        [(PageFetchOutcome.payload completedResult, true)] =
        ((fetchResults pageInit (PageFetchOutcome.payload completedResult)).1, 4)
    ∧ (fetchResults pageInit
        (PageFetchOutcome.payload completedResult)).1.pollCount =
        pageInit.pollCount :=
  claim_C3_cancellation pageInit 3 [processingStep]
    (PageFetchOutcome.payload completedResult) []

/-! ## PDF export (`handleExportPDF` in the results page)

Pagination core (jsPDF A4 portrait is 210 × 297 mm):

```
const margin = 10;
const contentWidth = pdfWidth - (margin * 2);
const imgRenderHeight = (imgProps.height * contentWidth) / imgProps.width;
let heightLeft = imgRenderHeight;
let position = margin;
pdf.addImage(imgData, 'JPEG', margin, position, contentWidth, imgRenderHeight, ...);
heightLeft -= (pdfHeight - margin * 2);
while (heightLeft > 0) \x7b
  position = heightLeft - imgRenderHeight + margin;
  pdf.addPage();
  pdf.addImage(imgData, 'JPEG', margin, position, contentWidth, imgRenderHeight, ...);
  heightLeft -= pdfHeight;
\x7d
```

All quantities are exact in the scenarios of interest, so the millimetre
arithmetic is modelled over `ℚ`.  The embedding returns the list of vertical
offsets (`position`) at which the single captured image is drawn, one entry
per page. -/

/-- jsPDF A4 portrait page width in mm (`pdf.internal.pageSize.getWidth()`). -/
def pdfWidth : ℚ := 210

/-- jsPDF A4 portrait page height in mm (`pdf.internal.pageSize.getHeight()`). -/
def pdfHeight : ℚ := 297

/-- Fixed margin on all sides, in mm. -/
def exportMargin : ℚ := 10

/-- Content width: page width minus the two side margins. -/
def contentWidth : ℚ := pdfWidth - exportMargin * 2

/-- Usable page height: page height minus top and bottom margins (the amount
subtracted after page 1). -/
def usablePageHeight : ℚ := pdfHeight - exportMargin * 2

/-- The `while (heightLeft > 0)` loop, emitting one `position` per extra
page.  The loop always terminates because `heightLeft` shrinks by
`pdfHeight = 297 > 0` per iteration; `fuel` is any upper bound on the number
of iterations. -/
def exportLoop (imgRenderHeight : ℚ) : Nat → ℚ → List ℚ
  | 0, _ => []
  | fuel + 1, heightLeft =>
    if 0 < heightLeft then
      (heightLeft - imgRenderHeight + exportMargin)
        :: exportLoop imgRenderHeight fuel (heightLeft - pdfHeight)
    else
      []

/-- Vertical image offsets of all pages produced for a captured image of
rendered height `imgRenderHeight`: page 1 is placed at `margin`, then the
loop runs on `heightLeft = imgRenderHeight - usablePageHeight`. -/
def pageOffsets (imgRenderHeight : ℚ) (fuel : Nat) : List ℚ :=
  exportMargin :: exportLoop imgRenderHeight fuel (imgRenderHeight - usablePageHeight)

theorem exportLoop_nonpos (imgRenderHeight : ℚ) (fuel : Nat) (heightLeft : ℚ)
    (h : ¬0 < heightLeft) : exportLoop imgRenderHeight fuel heightLeft = [] := by
  cases fuel with
  | zero => rfl
  | succ n => simp [exportLoop, h]

theorem exportLoop_chain (imgRenderHeight : ℚ) :
    ∀ (fuel : Nat) (heightLeft prev : ℚ),
      heightLeft + exportMargin - imgRenderHeight < prev →
      List.Chain (fun a b => b < a) prev
        (exportLoop imgRenderHeight fuel heightLeft) := by
  intro fuel
  induction fuel with
  | zero => intro heightLeft prev _; exact List.Chain.nil
  | succ n ih =>
    intro heightLeft prev hlt
    unfold exportLoop
    by_cases hpos : 0 < heightLeft
    · simp only [hpos, if_true]
      refine List.Chain.cons (by linarith) ?_
      refine ih (heightLeft - pdfHeight) _ ?_
      have hp : (0 : ℚ) < pdfHeight := by norm_num [pdfHeight]
      linarith
    · simp [hpos]

/-- C5 counterexample: at a rendered height of 2.5 × usable page height
(2.5 × 277 = 692.5 mm) the three pages are placed at offsets 10, −267 and
−564 mm, so the step from page 1 to page 2 is 277 mm (one usable page
height), NOT one full page height (297 mm) as the claim states: the claimed
offset for page 2 would be 10 − 297 = −287. -/
theorem claim_C5_counterexample :
    pageOffsets (1385 / 2) 5 = [10, -267, -564]
    ∧ ((1385 : ℚ) / 2 = (5 / 2) * usablePageHeight)
    ∧ ¬((-267 : ℚ) = 10 - pdfHeight) := by
  refine ⟨?_, by norm_num [usablePageHeight, pdfHeight, exportMargin], by norm_num [pdfHeight]⟩
  norm_num [pageOffsets, exportLoop, usablePageHeight, pdfHeight, exportMargin]

/-- C5 (amended): with A4 portrait pages and a 10 mm margin, an image whose
rendered height is at most one usable page height (277 mm) yields exactly one
page, whatever the loop fuel; a rendered height of 2.5 × usable page height
yields exactly 3 pages at offsets 10, −267, −564 mm — strictly decreasing,
with the page-1 → page-2 step equal to one usable page height (277 mm) and
every later step equal to one full page height (297 mm); and in general the
offsets across successive pages are strictly decreasing. -/
theorem claim_C5_pagination (h : ℚ) (hle : h ≤ usablePageHeight) (fuel : Nat) :
    (pageOffsets h fuel).length = 1
    ∧ (∀ (h2 : ℚ) (fuel2 : Nat),
        List.Chain' (fun a b => b < a) (pageOffsets h2 fuel2))
    ∧ pageOffsets (1385 / 2) 5 = [10, -267, -564]
    ∧ ((-267 : ℚ) = 10 - usablePageHeight)
    ∧ ((-564 : ℚ) = -267 - pdfHeight) := by
  refine ⟨?_, ?_, ?_, ?_, ?_⟩
  · have : ¬0 < h - usablePageHeight := by linarith
    simp [pageOffsets, exportLoop_nonpos _ _ _ this]
  · intro h2 fuel2
    show List.Chain (fun a b => b < a) exportMargin
      (exportLoop h2 fuel2 (h2 - usablePageHeight))
    refine exportLoop_chain h2 fuel2 (h2 - usablePageHeight) exportMargin ?_
    unfold usablePageHeight pdfHeight exportMargin
    linarith
  · norm_num [pageOffsets, exportLoop, usablePageHeight, pdfHeight, exportMargin]
  · norm_num [usablePageHeight, pdfHeight, exportMargin]
  · norm_num [pdfHeight]

/-- Witness for C5 (amended) at an image exactly one usable page height
tall. -/
theorem claim_C5_witness :
    (pageOffsets 277 1).length = 1
    ∧ (∀ (h2 : ℚ) (fuel2 : Nat),
        List.Chain' (fun a b => b < a) (pageOffsets h2 fuel2))
    ∧ pageOffsets (1385 / 2) 5 = [10, -267, -564]
    ∧ ((-267 : ℚ) = 10 - usablePageHeight)
    ∧ ((-564 : ℚ) = -267 - pdfHeight) :=
  claim_C5_pagination 277 (by norm_num [usablePageHeight, pdfHeight, exportMargin]) 1

/-! ### Export error handling (C9)

`handleExportPDF` wraps everything in `try/catch/finally`:

```
if (!reportRef.current) return;
setIsExporting(true);
try \x7b ... capture ... compose pages ... pdf.save(title); \x7d
catch (error) \x7b console.error(...); alert('Failed to generate PDF. Please try again.'); \x7d
finally \x7b setIsExporting(false); \x7d
```

It touches no other page state.  The model takes the point of failure as an
input: either the whole try block succeeds, or capture / page composition
throws before `pdf.save` is reached. -/

/-- How the try block of `handleExportPDF` resolves: success, or a throw
during capture or page composition (both before `pdf.save`). -/
inductive ExportOutcome where
  | success
  | captureThrow
  | composeThrow
deriving DecidableEq, Repr

/-- Externally visible effects of one export run. -/
structure ExportEff where
  saved : Option String
  alerted : Bool
deriving DecidableEq, Repr

/-- One run of `handleExportPDF` from page state `st`: `hasRef` is whether
`reportRef.current` is non-null, `jobId` names the output file, and `oc` is
where the try block resolves.  Returns the final page state and the
effects. -/
def handleExportPDF (st : PageSt) (hasRef : Bool) (jobId : String)
    (oc : ExportOutcome) : PageSt × ExportEff :=
  if !hasRef then
    (st, { saved := none, alerted := false })
  else
    match oc with
    | ExportOutcome.success =>
      ({ st with isExporting := false },
        { saved := some ("Normate-Analysis-" ++ jobId ++ ".pdf"), alerted := false })
    | ExportOutcome.captureThrow =>
      ({ st with isExporting := false }, { saved := none, alerted := true })
    | ExportOutcome.composeThrow =>
      ({ st with isExporting := false }, { saved := none, alerted := true })

/-- C9: if capture or page composition throws, the export run alerts the
user, never reaches the save call (no file, partial or otherwise, is
produced), leaves the polling/report state — phase, result, error, poll
counter — untouched, and returns the exporting flag to `false` so the action
can be retried. -/
theorem claim_C9_export_failure (st : PageSt) (jobId : String)
    (oc : ExportOutcome) (h : oc ≠ ExportOutcome.success) :
    (handleExportPDF st true jobId oc).2.alerted = true
    ∧ (handleExportPDF st true jobId oc).2.saved = none
    ∧ (handleExportPDF st true jobId oc).1.state = st.state
    ∧ (handleExportPDF st true jobId oc).1.result = st.result
    ∧ (handleExportPDF st true jobId oc).1.error = st.error
    ∧ (handleExportPDF st true jobId oc).1.pollCount = st.pollCount
    ∧ (handleExportPDF st true jobId oc).1.isExporting = false := by
  cases oc with
  | success => exact absurd rfl h
  | captureThrow => refine ⟨rfl, rfl, rfl, rfl, rfl, rfl, rfl⟩
  | composeThrow => refine ⟨rfl, rfl, rfl, rfl, rfl, rfl, rfl⟩

/-- Witness for C9 at a concrete failing export. -/
theorem claim_C9_witness :
    (handleExportPDF pageInit true "job-1" ExportOutcome.captureThrow).2.alerted = true
    ∧ (handleExportPDF pageInit true "job-1" ExportOutcome.captureThrow).2.saved = none
    ∧ (handleExportPDF pageInit true "job-1" ExportOutcome.captureThrow).1.state = pageInit.state
    ∧ (handleExportPDF pageInit true "job-1" ExportOutcome.captureThrow).1.result = pageInit.result
    ∧ (handleExportPDF pageInit true "job-1" ExportOutcome.captureThrow).1.error = pageInit.error
    ∧ (handleExportPDF pageInit true "job-1" ExportOutcome.captureThrow).1.pollCount = pageInit.pollCount
    ∧ (handleExportPDF pageInit true "job-1" ExportOutcome.captureThrow).1.isExporting = false :=
  claim_C9_export_failure pageInit "job-1" ExportOutcome.captureThrow
    (by intro hh; cases hh)

end NormateAI
